/-
A verification development for the bartix-playout repository.

The file shallowly embeds the two reconciliation daemons:
- `Bootstream` models `src/bootstream.py` (the playout supervisor):
  manifest access, volume handling, the player-child lifecycle of the
  main loop, and the manifest-fetch retry backoff.
- `NetworkManager` models `src/network-manager.py` (the network
  reconciler): the hotspot health checks, `start_hotspot`, the
  regulatory-domain one-shot flag, and the monitor loop's exception
  handling.

External effects (subprocess invocations, HTTP fetches, random draws)
are modelled as explicit inputs; machine behaviour that the scripts rely
on (SIGKILL ends a process; `subprocess.run` with `check=False` returns
a result object rather than raising for a nonzero exit status) is
reflected in the shape of those inputs.
-/
import Mathlib

/-- Python exception classes relevant to the scripts.  `keyboardInterrupt`
and `systemExit` derive from `BaseException` only; the rest derive from
`Exception` and are therefore caught by an `except Exception` clause. -/
inductive PyExc where
  | valueError
  | typeError
  | osError
  | runtimeError
  | keyboardInterrupt
  | systemExit
  | otherException
deriving DecidableEq, Repr

/-- Whether an `except Exception` clause catches the given exception:
true for every class except the two `BaseException`-only ones. -/
def PyExc.isException : PyExc → Bool
  | .keyboardInterrupt => false
  | .systemExit => false
  | _ => true

namespace Bootstream

/-- JSON values a manifest field can hold (bootstream.py reads the
manifest with `json.load` and accesses it as a dict). -/
inductive JVal where
  | jnull
  | jstr (s : String)
  | jint (n : Int)
  | jbool (b : Bool)
deriving DecidableEq, Repr

/-- A fetched manifest: a JSON object, i.e. a key-value association. -/
abbrev Manifest := List (String × JVal)

/-- `dict.get(k)`: the first value bound to `k`, if any. -/
def mget (m : Manifest) (k : String) : Option JVal :=
  (m.find? (fun p => p.1 == k)).map Prod.snd

/-- Python truthiness of a manifest value (`if not stream_url: ...`). -/
def truthy : JVal → Bool
  | .jnull => false
  | .jstr s => !(s == "")
  | .jint n => !(n == 0)
  | .jbool b => b

/-- Python `x or y`: `x` when truthy, else `y`. -/
def pyOr (x y : JVal) : JVal :=
  if truthy x then x else y

/-- Decimal digits to a number; `none` when empty or a non-digit occurs.
Models the digit strings accepted by Python's `int()`. -/
def digitsToNat : List Char → Option Nat
  | [] => none
  | cs =>
    cs.foldl
      (fun acc c =>
        match acc with
        | none => none
        | some n => if c.isDigit then some (n * 10 + (c.toNat - 48)) else none)
      (some 0)

/-- Python `int(s)` on a string: an optional sign followed by digits
(whitespace/underscore forms are not needed by any claim). -/
def pyStrToInt : String → Option Int
  | s =>
    match s.data with
    | '-' :: rest => (digitsToNat rest).map (fun n => -(n : Int))
    | '+' :: rest => (digitsToNat rest).map (fun n => (n : Int))
    | l => (digitsToNat l).map (fun n => (n : Int))

/-- Python `int(v)` on a manifest value: ints pass through, booleans
coerce, strings parse; `None` raises `TypeError`, an unparsable string
raises `ValueError`. -/
def pyToInt : JVal → Option Int
  | .jint n => some n
  | .jbool b => some (if b then 1 else 0)
  | .jstr s => pyStrToInt s
  | .jnull => none

/-- The exception `int(v)` raises when conversion fails. -/
def pyToIntExc : JVal → PyExc
  | .jstr _ => .valueError
  | _ => .typeError

/-- One `amixer set <ctl> <pct>%` invocation. -/
structure MixerCall where
  ctl : String
  pct : Int
deriving DecidableEq, Repr

/-- Body of `set_volume` (bootstream.py lines 78-82), inside the `try`:
convert, clamp to [0, 100], call `amixer` for each of the three
controls; a failed conversion raises. -/
def set_volume_body (pct : JVal) : Except PyExc (List MixerCall) :=
  match pyToInt pct with
  | some n =>
    let v := max 0 (min 100 n)
    .ok [⟨"PCM", v⟩, ⟨"Headphone", v⟩, ⟨"Speaker", v⟩]
  | none => .error (pyToIntExc pct)

/-- `set_volume` (bootstream.py lines 75-84): `None` and `""` return
early with no mixer call; the body runs under `except Exception`, which
swallows conversion errors.  The result is `.ok calls` exactly when no
exception escapes. -/
def set_volume (pct : JVal) : Except PyExc (List MixerCall) :=
  if pct = .jnull ∨ pct = .jstr "" then .ok []
  else
    match set_volume_body pct with
    | .ok calls => .ok calls
    | .error e => if e.isException then .ok [] else .error e

/-- The mixer calls `set_volume` performs (it never raises, so this is
total). -/
def set_volume_calls (pct : JVal) : List MixerCall :=
  match set_volume pct with
  | .ok calls => calls
  | .error _ => []

/-- Outcome of the startup section of `main` (bootstream.py 196-204). -/
inductive StartupResult where
  | exit (code : Nat)
  | started (streamUrl : JVal) (mixer : List MixerCall)
deriving DecidableEq, Repr

/-- The volume argument at startup: `manifest.get("volume", DEFAULT_VOL)`
with `DEFAULT_VOL` a string from the environment (default `""`). -/
def startup_volume_arg (defaultVol : String) (m : Manifest) : JVal :=
  (mget m "volume").getD (.jstr defaultVol)

/-- Mixer calls of the startup section (bootstream.py 202-204):
`set_volume(vol)` runs unless `vol` is `None` or `""`. -/
def startup_mixer_calls (defaultVol : String) (m : Manifest) : List MixerCall :=
  let vol := startup_volume_arg defaultVol m
  if vol = .jnull ∨ vol = .jstr "" then [] else set_volume_calls vol

/-- Startup section of `main` (bootstream.py 196-204): a falsy
`stream_url` is a fatal error, `sys.exit(1)`; otherwise the volume is
applied and the loop starts with that stream URL. -/
def main_startup (defaultVol : String) (m : Manifest) : StartupResult :=
  let su := (mget m "stream_url").getD .jnull
  if truthy su then .started su (startup_mixer_calls defaultVol m)
  else .exit 1

/-- Supervisor state: the child handle (`child` global), the set of
player processes spawned by the supervisor that are currently alive
(operating-system state), and the current stream URL. -/
structure SupState where
  child : Option Nat
  alive : List Nat
  streamUrl : JVal
deriving DecidableEq, Repr

/-- `terminate_child` (bootstream.py 109-120): if the handle holds a
live process, terminate it (graceful `terminate`, `wait(5)`, then
`kill`, so the process is no longer alive afterwards); the handle is
cleared in every case. -/
def terminate_child (s : SupState) : SupState :=
  match s.child with
  | some p =>
    if p ∈ s.alive then { s with child := none, alive := s.alive.erase p }
    else { s with child := none }
  | none => { s with child := none }

/-- A player process exiting on its own (observed later via `poll`). -/
def child_exit_event (s : SupState) (exits : Bool) : SupState :=
  if exits then
    match s.child with
    | some p => { s with alive := s.alive.erase p }
    | none => s
  else s

/-- The manifest-refresh step of the main loop (bootstream.py 218-231).
`fetched = none` models the `except Exception` branch: the refresh error
is logged and rescheduled, the state is untouched.  On success:
`new_url = new_manifest.get("stream_url") or stream_url`; the volume is
applied when the field is present and not `None`; the child is
terminated only when the (truthy-defaulted) URL differs. -/
def refresh_step (s : SupState) (fetched : Option Manifest) :
    SupState × List MixerCall :=
  match fetched with
  | none => (s, [])
  | some m =>
    let newUrl := pyOr ((mget m "stream_url").getD .jnull) s.streamUrl
    let calls :=
      match mget m "volume" with
      | some v => if v = .jnull then [] else set_volume_calls v
      | none => []
    if newUrl ≠ s.streamUrl then
      (terminate_child { s with streamUrl := newUrl }, calls)
    else (s, calls)

/-- A successful `subprocess.Popen` registers a new live process in the
handle; a `none` result models the caught spawn failure (bootstream.py
239-244), which leaves the state as it was. -/
def do_spawn (s : SupState) (res : Option Nat) : SupState :=
  match res with
  | some p => { s with child := some p, alive := s.alive ++ [p] }
  | none => s

/-- The spawn check of the main loop (bootstream.py 233-244): a new
player is started only when there is no handle or the handled process
has exited (`poll() is not None`). -/
def spawn_step (s : SupState) (res : Option Nat) : SupState :=
  match s.child with
  | some p => if p ∈ s.alive then s else do_spawn s res
  | none => do_spawn s res

/-- The external inputs of one main-loop iteration. -/
structure CycleInput where
  refreshDue : Bool
  fetched : Option Manifest
  childExits : Bool
  spawnRes : Option Nat

/-- One iteration of the main loop (bootstream.py 212-246): the child
may exit, then the refresh step runs when due, then the spawn check. -/
def sup_cycle (s : SupState) (i : CycleInput) : SupState :=
  let s0 := child_exit_event s i.childExits
  let s1 := if i.refreshDue then (refresh_step s0 i.fetched).1 else s0
  spawn_step s1 i.spawnRes

/-- Running the main loop over a sequence of iteration inputs. -/
def sup_run (s : SupState) : List CycleInput → SupState
  | [] => s
  | i :: is => sup_run (sup_cycle s i) is

/-- The supervisor's initial state: no child spawned yet. -/
def sup_init (su : JVal) : SupState :=
  { child := none, alive := [], streamUrl := su }

/-- The ownership invariant: every live supervisor-spawned process is
the one the handle points to, so at most one is alive. -/
def SupInv (s : SupState) : Prop :=
  s.alive.length ≤ 1 ∧ ∀ p ∈ s.alive, s.child = some p

/-- `jitter` (bootstream.py 56-57) with `u` the `random.random()` draw:
`base * (1 + (u*2 - 1) * 0.2)`. -/
def jitter (base u : ℚ) : ℚ :=
  base * (1 + (u * 2 - 1) * (2 / 10))

/-- The retry loop of `fetch_manifest` (bootstream.py 63-72), run for at
most `fuel` attempts.  `att k` is the outcome of the k-th HTTP attempt
(`none` = any exception: network error, non-2xx, malformed JSON), `us k`
the k-th random draw.  Returns the result (if any attempt succeeded
within the fuel) and the list of sleep durations performed. -/
def fetchAux (att : Nat → Option Manifest) (us : Nat → ℚ) :
    Nat → ℚ → Nat → Option Manifest × List ℚ
  | _, _, 0 => (none, [])
  | k, delay, fuel + 1 =>
    match att k with
    | some m => (some m, [])
    | none =>
      let slp := min (jitter delay (us k)) 30
      let r := fetchAux att us (k + 1) (min (delay * (17 / 10)) 30) fuel
      (r.1, slp :: r.2)

/-- `fetch_manifest` (bootstream.py 60-72) from the initial delay of 2
seconds. -/
def fetch_manifest (att : Nat → Option Manifest) (us : Nat → ℚ)
    (fuel : Nat) : Option Manifest × List ℚ :=
  fetchAux att us 0 2 fuel

/-- The delay parameter before the k-th failed attempt's sleep: starts
at 2, multiplied by 1.7 and clamped at 30 after each failure. -/
def delaySeq : Nat → ℚ
  | 0 => 2
  | n + 1 => min (delaySeq n * (17 / 10)) 30

end Bootstream

namespace NetworkManager

/-- Outcome of a `hostapd_cli` invocation that returned normally:
whether the exit status was 0, and whether the stdout showed the SSID
or `state=ENABLED`. -/
structure CliResult where
  rcOk : Bool
  showsEnabled : Bool
deriving DecidableEq, Repr

/-- The observable system state the two hotspot health checks read.
Each field is the result of one external query; `cliResult = none`
models the `hostapd_cli` call (the one run with a `timeout=` argument)
raising, e.g. `subprocess.TimeoutExpired`. -/
structure SysState where
  hostapdActive : Bool
  dnsmasqActive : Bool
  iwInfoRc : Bool
  iwInfoHasTypeAP : Bool
  ipLinkHasStateUp : Bool
  txpowerParsed : Option ℚ
  cliResult : Option CliResult
deriving DecidableEq, Repr

/-- `is_hotspot_running` (network-manager.py 154-183): hostapd active,
`"type AP"` in the `iw dev info` output, and dnsmasq active; false
otherwise. -/
def is_hotspot_running (s : SysState) : Bool :=
  if s.hostapdActive then
    if s.iwInfoHasTypeAP then
      if s.dnsmasqActive then true else false
    else false
  else false

/-- `verify_hotspot_broadcasting` (network-manager.py 186-292): hostapd
active, `iw dev info` succeeding and showing `"type AP"`, interface
`"state UP"`.  The transmit-power check (`txpowerParsed`) only logs and
best-effort re-sets the power; it never changes the result.  A
`hostapd_cli` invocation that returns normally only logs, whatever its
outcome; one that raises is caught by the function's outer `except`,
which returns false. -/
def verify_hotspot_broadcasting (s : SysState) : Bool :=
  if s.hostapdActive = false then false
  else if s.iwInfoRc = false then false
  else if s.iwInfoHasTypeAP = false then false
  else if s.ipLinkHasStateUp = false then false
  else
    match s.cliResult with
    | none => false
    | some _ => true

/-- The externally visible mutating actions of the network reconciler
that the claims track. -/
inductive Action where
  | regSet (country : String)
  | apStart
  | apRestart
  | dnsmasqStart
  | dnsmasqRestart
  | txpowerSet
  | linkDown
  | linkUp
  | verifyCall
deriving DecidableEq, Repr

/-- The external responses one `start_hotspot` invocation observes. -/
structure StartEnv where
  ifaceExists : Bool
  createOk : Bool
  linkUpOk : Bool
  regUnset : Bool
  countryCode : String
  hostapdStartOk : Bool
  dnsmasqActiveAfterHostapd : Bool
  sys1 : SysState
  sys2 : SysState
deriving Repr

/-- `start_hotspot` (network-manager.py 324-759), threading the
process-wide `_regulatory_domain_set` flag.  Returns the boolean result,
the flag afterwards, and the action sequence.  Faithful control points:
a missing interface that cannot be created returns false; a failed
`ip link set up` returns false; `iw reg set` runs only when the flag is
unset and `iw reg get` showed the domain unset (and then sets the
flag); a failed hostapd start returns false; after a successful start,
dnsmasq is restarted if no longer active, power is re-asserted, then
`verify_hotspot_broadcasting` is called — on failure, hostapd is
restarted once and verification retried once, deciding the result. -/
def start_hotspot (regFlag : Bool) (env : StartEnv) :
    Bool × Bool × List Action :=
  if env.ifaceExists = false ∧ env.createOk = false then
    (false, regFlag, [])
  else if env.linkUpOk = false then
    (false, regFlag, [.linkDown])
  else
    let doReg := regFlag = false ∧ env.regUnset = true
    let regActs : List Action := if doReg then [.regSet env.countryCode] else []
    let regFlag' := if doReg then true else regFlag
    let pre : List Action :=
      [.linkDown, .linkUp] ++ regActs ++
        [.txpowerSet, .txpowerSet, .dnsmasqStart, .apStart]
    if env.hostapdStartOk = false then
      (false, regFlag', pre)
    else
      let dns : List Action :=
        if env.dnsmasqActiveAfterHostapd = false then [.dnsmasqRestart] else []
      let base := pre ++ dns ++ [.txpowerSet, .verifyCall]
      if verify_hotspot_broadcasting env.sys1 = true then
        (true, regFlag', base)
      else
        let base2 := base ++ [.apRestart, .txpowerSet, .verifyCall]
        if verify_hotspot_broadcasting env.sys2 = true then
          (true, regFlag', base2)
        else
          (false, regFlag', base2)

/-- The external responses the regulatory-domain section of the
`main_loop` initialization observes (network-manager.py 944-1012). -/
structure InitRegEnv where
  regGetOk : Bool
  regShowsUnset : Bool
  countryCode : String
  setOk : Bool
  verifyGetOk : Bool
  verifyOk : Bool
deriving Repr

/-- The regulatory-domain section of `main_loop` initialization
(network-manager.py 944-1012): when `iw reg get` succeeds and shows the
domain unset, `iw reg set` runs; on nonzero status only an error is
logged; on success the setting is re-read — when that re-read fails,
nothing further happens; when it succeeds and verifies, the
process-wide flag is set; when it succeeds but mismatches, the
interface is brought down and `iw reg set` runs a second time (without
setting the flag). -/
def main_loop_init_reg (env : InitRegEnv) : Bool × List Action :=
  if env.regGetOk = true ∧ env.regShowsUnset = true then
    if env.setOk = false then (false, [.regSet env.countryCode])
    else if env.verifyGetOk = false then (false, [.regSet env.countryCode])
    else if env.verifyOk = true then (true, [.regSet env.countryCode])
    else (false, [.regSet env.countryCode, .linkDown, .regSet env.countryCode])
  else (false, [])

/-- All `start_hotspot` invocations of one process lifetime (both the
startup retries and the monitor-loop ticks call this function),
threading the flag; returns the final flag and the concatenated action
sequence. -/
def run_start_hotspots (regFlag : Bool) : List StartEnv → Bool × List Action
  | [] => (regFlag, [])
  | e :: es =>
    let r := start_hotspot regFlag e
    let rest := run_start_hotspots r.2.1 es
    (rest.1, r.2.2 ++ rest.2)

/-- How many `iw reg set` mutations an action sequence contains. -/
def countRegSets (l : List Action) : Nat :=
  (l.filter fun a => match a with | .regSet _ => true | _ => false).length

/-- How many `systemctl restart hostapd` actions a sequence contains. -/
def countApRestarts (l : List Action) : Nat :=
  (l.filter fun a => match a with | .apRestart => true | _ => false).length

/-- How many `verify_hotspot_broadcasting` calls a sequence contains. -/
def countVerifyCalls (l : List Action) : Nat :=
  (l.filter fun a => match a with | .verifyCall => true | _ => false).length

/-- The total number of `iw reg set` executions in one process lifetime
of the reconciler: the `main_loop` initialization followed by any
sequence of `start_hotspot` invocations. -/
def process_regsets (ienv : InitRegEnv) (envs : List StartEnv) : Nat :=
  let ini := main_loop_init_reg ienv
  let rest := run_start_hotspots ini.1 envs
  countRegSets (ini.2 ++ rest.2)

/-- How one reconciliation cycle ended: normally, or by raising. -/
inductive CycleOutcome where
  | normal
  | raised (e : PyExc)
deriving DecidableEq, Repr

/-- What the enclosing loop does after a cycle. -/
inductive LoopStepResult where
  | continues
  | breaks
  | crashes (e : PyExc)
deriving DecidableEq, Repr

/-- The monitor loop's handling of one cycle (network-manager.py
1060-1104): the cycle body runs under `try ... except
KeyboardInterrupt: break` only, so any other exception raised in the
cycle propagates and terminates the loop. -/
def monitor_loop_step (o : CycleOutcome) : LoopStepResult :=
  match o with
  | .normal => .continues
  | .raised e =>
    if e = .keyboardInterrupt then .breaks else .crashes e

end NetworkManager

namespace Bootstream

/-- The phases of one bootstream main-loop iteration (bootstream.py
212-246). -/
inductive BootPhase where
  | watchdogNotify
  | manifestRefresh
  | childPollCheck
  | playerSpawn
deriving DecidableEq, Repr

/-- Which exceptions each phase's handler catches: the manifest-refresh
block (lines 219-231) and the `Popen` call (lines 239-244) each run
under `except Exception`; the watchdog notification and the
`child.poll()` check run under no handler. -/
def boot_phase_catches : BootPhase → PyExc → Bool
  | .manifestRefresh, e => e.isException
  | .playerSpawn, e => e.isException
  | _, _ => false

/-- The bootstream main loop's handling of an exception raised in a
given phase of one iteration. -/
def boot_cycle_step (phase : BootPhase) (o : NetworkManager.CycleOutcome) :
    NetworkManager.LoopStepResult :=
  match o with
  | .normal => .continues
  | .raised e =>
    if boot_phase_catches phase e then .continues else .crashes e

end Bootstream

namespace Bootstream

lemma fetchAux_fst_of_all_fail (att : Nat → Option Manifest) (us : Nat → ℚ)
    (hatt : ∀ j, att j = none) :
    ∀ fuel k d, (fetchAux att us k d fuel).1 = none := by
  intro fuel
  induction fuel with
  | zero => intro k d; rfl
  | succ n ih =>
    intro k d
    simp only [fetchAux, hatt k]
    exact ih (k + 1) _

lemma fetchAux_sleeps_of_all_fail (att : Nat → Option Manifest) (us : Nat → ℚ)
    (hatt : ∀ j, att j = none) :
    ∀ fuel k, (fetchAux att us k (delaySeq k) fuel).2 =
      (List.range fuel).map
        (fun i => min (jitter (delaySeq (k + i)) (us (k + i))) 30) := by
  intro fuel
  induction fuel with
  | zero => intro k; rfl
  | succ n ih =>
    intro k
    have hstep : min (delaySeq k * (17 / 10)) 30 = delaySeq (k + 1) := rfl
    simp only [fetchAux, hatt k, hstep, ih (k + 1)]
    rw [List.range_succ_eq_map]
    simp only [List.map_cons, List.map_map, Nat.add_zero]
    refine congrArg (fun l => _ :: l) ?_
    apply List.map_congr_left
    intro i _
    simp only [Function.comp]
    have h1 : k + 1 + i = k + Nat.succ i := by omega
    rw [h1]

lemma delaySeq_bounds : ∀ n, 2 ≤ delaySeq n ∧ delaySeq n ≤ 30 := by
  intro n
  induction n with
  | zero => constructor <;> norm_num [delaySeq]
  | succ m ih =>
    constructor
    · show 2 ≤ min (delaySeq m * (17 / 10)) 30
      rw [le_min_iff]
      constructor
      · nlinarith [ih.1]
      · norm_num
    · exact min_le_right _ _

lemma delaySeq_mono (n : Nat) : delaySeq n ≤ delaySeq (n + 1) := by
  have h := delaySeq_bounds n
  show delaySeq n ≤ min (delaySeq n * (17 / 10)) 30
  rw [le_min_iff]
  constructor
  · nlinarith [h.1]
  · exact h.2

lemma jitter_bounds (d u : ℚ) (hd : 0 ≤ d) (hu0 : 0 ≤ u) (hu1 : u < 1) :
    (4 / 5) * d ≤ jitter d u ∧ jitter d u ≤ (6 / 5) * d := by
  unfold jitter
  constructor <;> nlinarith

lemma alive_singleton {s : SupState} (h : SupInv s) {p : Nat}
    (hp : p ∈ s.alive) : s.alive = [p] := by
  obtain ⟨hlen, _⟩ := h
  cases hl : s.alive with
  | nil => rw [hl] at hp; cases hp
  | cons a t =>
    cases t with
    | nil =>
      rw [hl] at hp
      have hpa : p = a := by simpa using hp
      rw [hpa]
    | cons b t2 =>
      rw [hl] at hlen
      simp at hlen

lemma alive_nil_of_child_none {s : SupState} (h : SupInv s)
    (hc : s.child = none) : s.alive = [] := by
  obtain ⟨_, hmem⟩ := h
  cases hl : s.alive with
  | nil => rfl
  | cons a t =>
    have := hmem a (by rw [hl]; exact List.mem_cons_self a t)
    rw [hc] at this
    cases this

lemma alive_nil_of_not_mem {s : SupState} (h : SupInv s) {p : Nat}
    (hc : s.child = some p) (hp : p ∉ s.alive) : s.alive = [] := by
  obtain ⟨_, hmem⟩ := h
  cases hl : s.alive with
  | nil => rfl
  | cons a t =>
    have ha := hmem a (by rw [hl]; exact List.mem_cons_self a t)
    rw [hc] at ha
    have : p = a := by injection ha
    rw [this] at hp
    rw [hl] at hp
    exact absurd (List.mem_cons_self a t) hp

lemma terminate_child_clears {s : SupState} (h : SupInv s) :
    terminate_child s =
      { child := none, alive := [], streamUrl := s.streamUrl } := by
  cases hc : s.child with
  | none =>
    have ha := alive_nil_of_child_none h hc
    simp [terminate_child, hc, ha]
  | some p =>
    by_cases hp : p ∈ s.alive
    · have ha := alive_singleton h hp
      simp [terminate_child, hc, hp, ha]
    · have ha := alive_nil_of_not_mem h hc hp
      simp [terminate_child, hc, hp, ha]

lemma SupInv_child_exit {s : SupState} (h : SupInv s) (b : Bool) :
    SupInv (child_exit_event s b) := by
  obtain ⟨hlen, hmem⟩ := h
  cases b with
  | false => exact ⟨hlen, hmem⟩
  | true =>
    cases hc : s.child with
    | none =>
      have he : child_exit_event s true = s := by simp [child_exit_event, hc]
      rw [he]
      exact ⟨hlen, hmem⟩
    | some p =>
      refine ⟨?_, ?_⟩
      · simp only [child_exit_event, hc, if_true]
        exact le_trans (List.Sublist.length_le (List.erase_sublist p s.alive)) hlen
      · intro q hq
        simp only [child_exit_event, hc, if_true] at hq ⊢
        rw [← hc]
        exact hmem q (List.mem_of_mem_erase hq)

lemma SupInv_refresh {s : SupState} (h : SupInv s) (f : Option Manifest) :
    SupInv (refresh_step s f).1 := by
  cases f with
  | none => exact h
  | some m =>
    simp only [refresh_step]
    split
    · show SupInv (terminate_child { s with streamUrl := pyOr ((mget m "stream_url").getD .jnull) s.streamUrl })
      have hinv : SupInv { s with streamUrl := pyOr ((mget m "stream_url").getD .jnull) s.streamUrl } := ⟨h.1, h.2⟩
      rw [terminate_child_clears hinv]
      exact ⟨by simp, by intro p hp; cases hp⟩
    · exact h

lemma SupInv_spawn {s : SupState} (h : SupInv s) (r : Option Nat) :
    SupInv (spawn_step s r) := by
  have hspawn : s.alive = [] → SupInv (do_spawn s r) := by
    intro ha
    cases r with
    | none => exact h
    | some q =>
      refine ⟨?_, ?_⟩
      · simp [do_spawn, ha]
      · intro p hp
        simp only [do_spawn, ha, List.nil_append] at hp ⊢
        have : p = q := by simpa using hp
        rw [this]
  cases hc : s.child with
  | none =>
    have ha := alive_nil_of_child_none h hc
    simpa [spawn_step, hc] using hspawn ha
  | some p =>
    by_cases hp : p ∈ s.alive
    · simpa [spawn_step, hc, hp] using h
    · have ha := alive_nil_of_not_mem h hc hp
      simpa [spawn_step, hc, hp] using hspawn ha

lemma SupInv_cycle {s : SupState} (h : SupInv s) (i : CycleInput) :
    SupInv (sup_cycle s i) := by
  unfold sup_cycle
  apply SupInv_spawn
  by_cases hr : i.refreshDue <;>
    simp only [hr, if_true, if_false] <;>
    first
      | exact SupInv_refresh (SupInv_child_exit h i.childExits) i.fetched
      | exact SupInv_child_exit h i.childExits

lemma SupInv_run {s : SupState} (h : SupInv s) :
    ∀ is, SupInv (sup_run s is) := by
  intro is
  induction is generalizing s with
  | nil => exact h
  | cons i rest ih => exact ih (SupInv_cycle h i)

lemma SupInv_sup_init (su : JVal) : SupInv (sup_init su) :=
  ⟨by simp [sup_init], by intro p hp; cases hp⟩

/-- C1: at every reachable state of the supervisor's main loop at most
one supervisor-spawned player process is alive; and a manifest refresh
whose (defaulted) stream_url differs from the current one terminates the
running child and clears the handle — before the spawn check, which the
loop body only runs afterwards. -/
theorem at_most_one_player_process :
    (∀ (su : JVal) (is : List CycleInput),
      (sup_run (sup_init su) is).alive.length ≤ 1) ∧
    (∀ (s : SupState) (m : Manifest), SupInv s →
      pyOr ((mget m "stream_url").getD .jnull) s.streamUrl ≠ s.streamUrl →
      (refresh_step s (some m)).1.child = none ∧
        (refresh_step s (some m)).1.alive = []) := by
  constructor
  · intro su is
    exact (SupInv_run (SupInv_sup_init su) is).1
  · intro s m hinv hne
    have h1 : (refresh_step s (some m)).1 =
        terminate_child { s with streamUrl := pyOr ((mget m "stream_url").getD .jnull) s.streamUrl } := by
      simp only [refresh_step, if_pos hne]
    have hinv2 : SupInv { s with streamUrl := pyOr ((mget m "stream_url").getD .jnull) s.streamUrl } :=
      ⟨hinv.1, hinv.2⟩
    rw [h1, terminate_child_clears hinv2]
    exact ⟨rfl, rfl⟩

/-- Witness for C1 at a concrete run and a concrete refresh. -/
theorem at_most_one_player_process_w :
    (sup_run (sup_init (.jstr "a"))
      [⟨true, some [("stream_url", .jstr "b")], false, some 7⟩]).alive.length ≤ 1 ∧
    ((refresh_step ⟨some 3, [3], .jstr "a"⟩
        (some [("stream_url", .jstr "b")])).1.child = none ∧
      (refresh_step ⟨some 3, [3], .jstr "a"⟩
        (some [("stream_url", .jstr "b")])).1.alive = []) :=
  ⟨at_most_one_player_process.1 (.jstr "a")
      [⟨true, some [("stream_url", .jstr "b")], false, some 7⟩],
   at_most_one_player_process.2 ⟨some 3, [3], .jstr "a"⟩
      [("stream_url", .jstr "b")]
      ⟨by simp, by intro p hp; simp at hp; simp [hp]⟩ (by decide)⟩

/-- C3 (amended): for a URL where every attempt fails, fetch_manifest
never returns; the k-th sleep is min(jitter(delay_k), 30) with
jitter(d) ∈ [0.8·d, 1.2·d]; every sleep is at most 30; the delay starts
at 2 and the delay sequence is non-decreasing and bounded at 30.  (The
sleep sequence itself is not non-decreasing; see the counterexample.) -/
theorem fetch_manifest_backoff (att : Nat → Option Manifest) (us : Nat → ℚ)
    (hatt : ∀ j, att j = none) (hus : ∀ j, 0 ≤ us j ∧ us j < 1) :
    (∀ fuel, (fetch_manifest att us fuel).1 = none) ∧
    (∀ fuel, (fetch_manifest att us fuel).2 =
      (List.range fuel).map (fun k => min (jitter (delaySeq k) (us k)) 30)) ∧
    (∀ k, (4 / 5) * delaySeq k ≤ jitter (delaySeq k) (us k) ∧
      jitter (delaySeq k) (us k) ≤ (6 / 5) * delaySeq k) ∧
    (∀ fuel, ∀ x ∈ (fetch_manifest att us fuel).2, x ≤ 30) ∧
    delaySeq 0 = 2 ∧
    (∀ k, delaySeq k ≤ delaySeq (k + 1) ∧ delaySeq k ≤ 30) := by
  have hsleeps : ∀ fuel, (fetch_manifest att us fuel).2 =
      (List.range fuel).map (fun k => min (jitter (delaySeq k) (us k)) 30) := by
    intro fuel
    have h := fetchAux_sleeps_of_all_fail att us hatt fuel 0
    simpa [fetch_manifest] using h
  refine ⟨?_, hsleeps, ?_, ?_, rfl, ?_⟩
  · intro fuel
    exact fetchAux_fst_of_all_fail att us hatt fuel 0 2
  · intro k
    have hd : (0:ℚ) ≤ delaySeq k := le_trans (by norm_num) (delaySeq_bounds k).1
    exact jitter_bounds _ _ hd (hus k).1 (hus k).2
  · intro fuel x hx
    rw [hsleeps fuel] at hx
    obtain ⟨k, _, hk⟩ := List.mem_map.mp hx
    rw [← hk]
    exact min_le_right _ _
  · intro k
    exact ⟨delaySeq_mono k, (delaySeq_bounds k).2⟩

/-- Witness for C3 on a concrete all-failing attempt sequence. -/
theorem fetch_manifest_backoff_w :
    (fetch_manifest (fun _ => none) (fun _ => (0:ℚ)) 2).1 = none :=
  (fetch_manifest_backoff (fun _ => none) (fun _ => 0) (fun _ => rfl)
    (fun _ => ⟨le_refl 0, by norm_num⟩)).1 2

/-- C3 counterexample: with attempts all failing and random draws 0.9 on
the 6th attempt and 0 elsewhere, the 6th sleep is 30 (clamped) and the
7th is 24: the sleep durations are not non-decreasing. -/
theorem fetch_sleeps_not_monotone :
    (fetch_manifest (fun _ => none) (fun k => if k = 5 then 9 / 10 else 0) 7).2 =
      [8/5, 68/25, 578/125, 4913/625, 83521/6250, 30, 24] ∧
    ¬ List.Chain' (· ≤ ·)
      (fetch_manifest (fun _ => none) (fun k => if k = 5 then 9 / 10 else 0) 7).2 := by
  have hlist : (fetch_manifest (fun _ => none) (fun k => if k = 5 then 9 / 10 else 0) 7).2 =
      [8/5, 68/25, 578/125, 4913/625, 83521/6250, 30, 24] := by
    norm_num [fetch_manifest, fetchAux, jitter, min_def]
  refine ⟨hlist, ?_⟩
  rw [hlist]
  intro h
  have h30 : (30:ℚ) ≤ 24 := by
    simp [List.chain'_iff_get] at h
    have := h 5 (by norm_num)
    norm_num at this
  norm_num at h30

/-- C4: a successfully fetched startup manifest lacking stream_url makes
the supervisor exit fatally with code 1. -/
theorem missing_stream_url_exits (defaultVol : String) (m : Manifest)
    (h : mget m "stream_url" = none) :
    main_startup defaultVol m = .exit 1 := by
  simp [main_startup, h, truthy]

/-- Witness for C4 on the empty manifest. -/
theorem missing_stream_url_exits_w : main_startup "" [] = .exit 1 :=
  missing_stream_url_exits "" [] rfl

/-- C5: a refresh whose manifest lacks stream_url is a soft failure:
the supervisor state (stream URL, child handle, live processes) is
exactly what it was, so nothing is terminated. -/
theorem refresh_missing_stream_url_soft (s : SupState) (m : Manifest)
    (h : mget m "stream_url" = none) :
    (refresh_step s (some m)).1 = s := by
  simp [refresh_step, h, pyOr, truthy]

/-- Witness for C5 with a player running. -/
theorem refresh_missing_stream_url_soft_w :
    (refresh_step ⟨some 3, [3], .jstr "a"⟩ (some [("volume", .jint 5)])).1 =
      ⟨some 3, [3], .jstr "a"⟩ :=
  refresh_missing_stream_url_soft ⟨some 3, [3], .jstr "a"⟩
    [("volume", .jint 5)] rfl

/-- C9 (amended): a refreshed manifest lacking volume causes no mixer
call; the same holds at startup when DEFAULT_VOLUME is empty (its
default) — but a configured DEFAULT_VOLUME is applied at startup even
when the manifest lacks volume (see the counterexample). -/
theorem missing_volume_no_mixer (s : SupState) (m : Manifest)
    (h : mget m "volume" = none) :
    (refresh_step s (some m)).2 = [] ∧ startup_mixer_calls "" m = [] := by
  constructor
  · simp only [refresh_step, h]
    split <;> rfl
  · simp [startup_mixer_calls, startup_volume_arg, h]

/-- Witness for C9 at a concrete refresh and startup. -/
theorem missing_volume_no_mixer_w :
    (refresh_step ⟨some 3, [3], .jstr "a"⟩
      (some [("stream_url", .jstr "a")])).2 = [] ∧
    startup_mixer_calls "" [("stream_url", .jstr "a")] = [] :=
  missing_volume_no_mixer ⟨some 3, [3], .jstr "a"⟩
    [("stream_url", .jstr "a")] rfl

/-- C9 counterexample: with DEFAULT_VOLUME configured as "50", a
successfully fetched startup manifest lacking volume still produces
mixer calls. -/
theorem default_volume_mixer_call :
    mget [("stream_url", JVal.jstr "u")] "volume" = none ∧
    main_startup "50" [("stream_url", JVal.jstr "u")] =
      .started (.jstr "u")
        [⟨"PCM", 50⟩, ⟨"Headphone", 50⟩, ⟨"Speaker", 50⟩] := by
  constructor <;> rfl

/-- C10: set_volume never lets an exception escape; None and "" make no
mixer call; an int-convertible argument drives the mixer with the value
clamped into [0, 100]; a non-convertible argument is caught with no
mixer call. -/
theorem set_volume_total_clamping (pct : JVal) :
    (∃ calls, set_volume pct = .ok calls) ∧
    ((pct = .jnull ∨ pct = .jstr "") → set_volume pct = .ok []) ∧
    (∀ n, pyToInt pct = some n →
      set_volume pct = .ok
        [⟨"PCM", max 0 (min 100 n)⟩, ⟨"Headphone", max 0 (min 100 n)⟩,
          ⟨"Speaker", max 0 (min 100 n)⟩] ∧
      0 ≤ max 0 (min 100 n) ∧ max 0 (min 100 n) ≤ 100 ∧
      (n < 0 → max 0 (min 100 n) = 0) ∧
      (100 < n → max 0 (min 100 n) = 100)) ∧
    (pyToInt pct = none → set_volume pct = .ok []) := by
  by_cases h0 : pct = .jnull ∨ pct = .jstr ""
  · have hok : set_volume pct = .ok [] := by simp [set_volume, h0]
    refine ⟨⟨[], hok⟩, fun _ => hok, ?_, fun _ => hok⟩
    intro n hn
    rcases h0 with h | h <;> rw [h] at hn <;> simp [pyToInt, pyStrToInt, digitsToNat] at hn
  · cases hconv : pyToInt pct with
    | none =>
      have hok : set_volume pct = .ok [] := by
        simp [set_volume, h0, set_volume_body, hconv, pyToIntExc, PyExc.isException]
        cases pct <;> simp [pyToIntExc, PyExc.isException]
      refine ⟨⟨[], hok⟩, fun h => absurd h h0, ?_, fun _ => hok⟩
      intro n hn
      cases hn
    | some n =>
      have hok : set_volume pct = .ok
          [⟨"PCM", max 0 (min 100 n)⟩, ⟨"Headphone", max 0 (min 100 n)⟩,
            ⟨"Speaker", max 0 (min 100 n)⟩] := by
        simp [set_volume, h0, set_volume_body, hconv]
      refine ⟨⟨_, hok⟩, fun h => absurd h h0, ?_, ?_⟩
      · intro k hk
        injection hk with hk
        subst hk
        refine ⟨hok, by omega, by omega, by omega, by omega⟩
      · intro h
        cases h

/-- Witness for C10 at an out-of-range string input. -/
theorem set_volume_total_clamping_w :
    set_volume (.jstr "150") = .ok
      [⟨"PCM", 100⟩, ⟨"Headphone", 100⟩, ⟨"Speaker", 100⟩] := by
  have h := ((set_volume_total_clamping (.jstr "150")).2.2.1 150 (by rfl)).1
  simpa using h

end Bootstream

namespace NetworkManager

lemma countRegSets_append (l1 l2 : List Action) :
    countRegSets (l1 ++ l2) = countRegSets l1 + countRegSets l2 := by
  simp [countRegSets, List.filter_append]

lemma start_hotspot_reg_flag_true (e : StartEnv) :
    (start_hotspot true e).2.1 = true ∧
      countRegSets (start_hotspot true e).2.2 = 0 := by
  obtain ⟨i, c, l, r, cc, hs, dns, s1, s2⟩ := e
  cases i <;> cases c <;> cases l <;> cases r <;> cases hs <;> cases dns <;>
    cases hv1 : verify_hotspot_broadcasting s1 <;>
    cases hv2 : verify_hotspot_broadcasting s2 <;>
    simp [start_hotspot, countRegSets, hv1, hv2]

lemma start_hotspot_reg_flag_false (e : StartEnv) :
    (countRegSets (start_hotspot false e).2.2 = 0 ∧
        (start_hotspot false e).2.1 = false) ∨
      (countRegSets (start_hotspot false e).2.2 ≤ 1 ∧
        (start_hotspot false e).2.1 = true) := by
  obtain ⟨i, c, l, r, cc, hs, dns, s1, s2⟩ := e
  cases i <;> cases c <;> cases l <;> cases r <;> cases hs <;> cases dns <;>
    cases hv1 : verify_hotspot_broadcasting s1 <;>
    cases hv2 : verify_hotspot_broadcasting s2 <;>
    simp [start_hotspot, countRegSets, hv1, hv2]

lemma run_start_hotspots_reg_le :
    ∀ (envs : List StartEnv) (flag : Bool),
      countRegSets (run_start_hotspots flag envs).2 ≤
        (if flag = true then 0 else 1) := by
  intro envs
  induction envs with
  | nil => intro flag; cases flag <;> simp [run_start_hotspots, countRegSets]
  | cons e es ih =>
    intro flag
    simp only [run_start_hotspots, countRegSets_append]
    cases flag with
    | true =>
      obtain ⟨hf, hc⟩ := start_hotspot_reg_flag_true e
      rw [hc, hf]
      simpa using ih true
    | false =>
      rcases start_hotspot_reg_flag_false e with ⟨hc, hf⟩ | ⟨hc, hf⟩
      · rw [hc, hf]
        simpa using ih false
      · rw [hf]
        have hrest : countRegSets (run_start_hotspots true es).2 = 0 :=
          Nat.le_zero.mp (by simpa using ih true)
        rw [hrest]
        simpa using hc

lemma main_loop_init_reg_cases (ienv : InitRegEnv) :
    countRegSets (main_loop_init_reg ienv).2 ≤ 2 ∧
    ((main_loop_init_reg ienv).1 = true →
      countRegSets (main_loop_init_reg ienv).2 = 1) ∧
    ((ienv.regGetOk = false ∨ ienv.regShowsUnset = false) →
      countRegSets (main_loop_init_reg ienv).2 = 0 ∧
        (main_loop_init_reg ienv).1 = false) ∧
    (ienv.setOk = true → ienv.verifyGetOk = true → ienv.verifyOk = true →
      countRegSets (main_loop_init_reg ienv).2 ≤ 1 ∧
        (countRegSets (main_loop_init_reg ienv).2 = 1 →
          (main_loop_init_reg ienv).1 = true)) := by
  obtain ⟨g, u, cc, so, vg, vo⟩ := ienv
  cases g <;> cases u <;> cases so <;> cases vg <;> cases vo <;>
    simp [main_loop_init_reg, countRegSets]

/-- C2 (amended): in one process lifetime, the `iw reg set` mutation is
executed at most once by all `start_hotspot` invocations combined, and
at most three times overall (the `main_loop` initializer may run it
twice when its first set succeeds but phy-level verification fails); it
is executed at most once overall whenever the initializer's set is
successfully re-read and verified, or the initializer finds the domain
already set. -/
theorem regulatory_domain_set_bounds (ienv : InitRegEnv)
    (envs : List StartEnv) :
    process_regsets ienv envs ≤ 3 ∧
    countRegSets (run_start_hotspots (main_loop_init_reg ienv).1 envs).2 ≤ 1 ∧
    ((ienv.regGetOk = false ∨ ienv.regShowsUnset = false) →
      process_regsets ienv envs ≤ 1) ∧
    (ienv.setOk = true → ienv.verifyGetOk = true → ienv.verifyOk = true →
      process_regsets ienv envs ≤ 1) := by
  obtain ⟨hinit2, hflag1, hnotunset, hverify⟩ := main_loop_init_reg_cases ienv
  have hrun := run_start_hotspots_reg_le envs (main_loop_init_reg ienv).1
  have hsplit : process_regsets ienv envs =
      countRegSets (main_loop_init_reg ienv).2 +
        countRegSets (run_start_hotspots (main_loop_init_reg ienv).1 envs).2 := by
    simp [process_regsets, countRegSets_append]
  have hrun1 : countRegSets
      (run_start_hotspots (main_loop_init_reg ienv).1 envs).2 ≤ 1 := by
    rcases hf : (main_loop_init_reg ienv).1
    · rw [hf] at hrun; simpa using hrun
    · rw [hf] at hrun
      simp at hrun
      omega
  refine ⟨?_, hrun1, ?_, ?_⟩
  · rw [hsplit]; omega
  · intro h
    obtain ⟨hc0, hf0⟩ := hnotunset h
    rw [hsplit, hc0, hf0]
    simpa using run_start_hotspots_reg_le envs false
  · intro hso hvg hvo
    obtain ⟨hle1, himp⟩ := hverify hso hvg hvo
    rw [hsplit]
    by_cases h1 : countRegSets (main_loop_init_reg ienv).2 = 1
    · have hf := himp h1
      rw [h1, hf]
      rw [hf] at hrun
      simp at hrun
      omega
    · have h0 : countRegSets (main_loop_init_reg ienv).2 = 0 := by omega
      rw [h0]
      omega

/-- Witness for C2 at a concrete initializer environment. -/
theorem regulatory_domain_set_bounds_w :
    process_regsets ⟨false, false, "NL", false, false, false⟩ [] ≤ 1 ∧
      process_regsets ⟨false, false, "NL", false, false, false⟩ [] ≤ 3 :=
  ⟨(regulatory_domain_set_bounds
        ⟨false, false, "NL", false, false, false⟩ []).2.2.1 (Or.inl rfl),
   (regulatory_domain_set_bounds
        ⟨false, false, "NL", false, false, false⟩ []).1⟩

/-- C2 counterexample: when the initializer's `iw reg set` succeeds but
the phy-level verification re-read mismatches, the initializer alone
executes the mutation twice in one process lifetime — refuting "at most
once". -/
theorem regset_executed_twice :
    process_regsets ⟨true, true, "NL", true, true, false⟩ [] = 2 ∧
      ¬ process_regsets ⟨true, true, "NL", true, true, false⟩ [] ≤ 1 := by
  constructor <;> decide

/-- C6 (amended): a true verify_hotspot_broadcasting implies the
hostapd-active and AP-mode conjuncts of is_hotspot_running and that the
interface is up — but not the dnsmasq conjunct, so it implies
is_hotspot_running only when dnsmasq is also active; and a hostapd_cli
query that returns normally never by itself makes the verification
false (whatever its exit status), though one that raises is caught by
the outer handler and yields false. -/
theorem broadcasting_vs_running (s : SysState) :
    (verify_hotspot_broadcasting s = true →
      s.hostapdActive = true ∧ s.iwInfoHasTypeAP = true ∧
        s.ipLinkHasStateUp = true) ∧
    (verify_hotspot_broadcasting s = true → s.dnsmasqActive = true →
      is_hotspot_running s = true) ∧
    (∀ r : CliResult, s.hostapdActive = true → s.iwInfoRc = true →
      s.iwInfoHasTypeAP = true → s.ipLinkHasStateUp = true →
      s.cliResult = some r → verify_hotspot_broadcasting s = true) := by
  obtain ⟨ha, hd, hrc, hap, hup, tx, cli⟩ := s
  cases ha <;> cases hd <;> cases hrc <;> cases hap <;> cases hup <;>
    cases cli <;>
    simp [verify_hotspot_broadcasting, is_hotspot_running]

/-- Witness for C6 at a fully healthy state. -/
theorem broadcasting_vs_running_w :
    verify_hotspot_broadcasting
      ⟨true, true, true, true, true, none, some ⟨true, true⟩⟩ = true :=
  (broadcasting_vs_running
      ⟨true, true, true, true, true, none, some ⟨true, true⟩⟩).2.2
    ⟨true, true⟩ rfl rfl rfl rfl rfl

/-- C6 counterexample: with dnsmasq inactive but everything else
healthy, verify_hotspot_broadcasting returns true while
is_hotspot_running returns false — so is_broadcasting is not a stronger
check than is_running. -/
theorem broadcasting_without_running :
    verify_hotspot_broadcasting
      ⟨true, false, true, true, true, none, some ⟨false, false⟩⟩ = true ∧
    is_hotspot_running
      ⟨true, false, true, true, true, none, some ⟨false, false⟩⟩ = false := by
  constructor <;> rfl

set_option maxHeartbeats 1600000 in
/-- C7: within a single start_hotspot invocation, the AP service is
restarted at most once; when the call reaches the final verification
and that verification fails, exactly one restart and exactly one
re-verification happen and the result is exactly the second
verification's outcome; when the first verification succeeds there is
no restart and the call returns true. -/
theorem start_hotspot_single_restart (flag : Bool) (env : StartEnv) :
    countApRestarts (start_hotspot flag env).2.2 ≤ 1 ∧
    (¬(env.ifaceExists = false ∧ env.createOk = false) →
      env.linkUpOk = true → env.hostapdStartOk = true →
      verify_hotspot_broadcasting env.sys1 = false →
      countApRestarts (start_hotspot flag env).2.2 = 1 ∧
      countVerifyCalls (start_hotspot flag env).2.2 = 2 ∧
      (start_hotspot flag env).1 = verify_hotspot_broadcasting env.sys2) ∧
    (¬(env.ifaceExists = false ∧ env.createOk = false) →
      env.linkUpOk = true → env.hostapdStartOk = true →
      verify_hotspot_broadcasting env.sys1 = true →
      countApRestarts (start_hotspot flag env).2.2 = 0 ∧
      (start_hotspot flag env).1 = true) := by
  obtain ⟨i, c, l, r, cc, hs, dns, s1, s2⟩ := env
  cases i <;> cases c <;> cases l <;> cases r <;> cases hs <;> cases dns <;>
    cases flag <;>
    cases hv1 : verify_hotspot_broadcasting s1 <;>
    cases hv2 : verify_hotspot_broadcasting s2 <;>
    simp [start_hotspot, countApRestarts, countVerifyCalls, hv1, hv2]

/-- Witness for C7: a run that reaches the final verification, fails
it, restarts once, and succeeds on the re-verification. -/
theorem start_hotspot_single_restart_w :
    countApRestarts (start_hotspot false
      ⟨true, true, true, false, "NL", true, true,
        ⟨false, false, false, false, false, none, none⟩,
        ⟨true, true, true, true, true, none, some ⟨true, true⟩⟩⟩).2.2 = 1 ∧
    countVerifyCalls (start_hotspot false
      ⟨true, true, true, false, "NL", true, true,
        ⟨false, false, false, false, false, none, none⟩,
        ⟨true, true, true, true, true, none, some ⟨true, true⟩⟩⟩).2.2 = 2 ∧
    (start_hotspot false
      ⟨true, true, true, false, "NL", true, true,
        ⟨false, false, false, false, false, none, none⟩,
        ⟨true, true, true, true, true, none, some ⟨true, true⟩⟩⟩).1 =
      verify_hotspot_broadcasting
        ⟨true, true, true, true, true, none, some ⟨true, true⟩⟩ :=
  (start_hotspot_single_restart false
    ⟨true, true, true, false, "NL", true, true,
      ⟨false, false, false, false, false, none, none⟩,
      ⟨true, true, true, true, true, none, some ⟨true, true⟩⟩⟩).2.1
    (by decide) rfl rfl rfl

end NetworkManager

/-- C8 (amended): in the bootstream main loop, the manifest-refresh and
player-spawn steps catch every Exception at the step boundary (and a
failed refresh leaves the supervisor state untouched, a transient
failure), but only those two phases have handlers; the network
reconciler's monitor loop catches only KeyboardInterrupt (a clean
break), so any other exception raised in a cycle terminates the loop. -/
theorem loop_exception_handling (e : PyExc) (phase : Bootstream.BootPhase)
    (s : Bootstream.SupState) :
    (e.isException = true →
      Bootstream.boot_cycle_step .manifestRefresh (.raised e) = .continues ∧
      Bootstream.boot_cycle_step .playerSpawn (.raised e) = .continues) ∧
    (Bootstream.refresh_step s none).1 = s ∧
    NetworkManager.monitor_loop_step (.raised .keyboardInterrupt) =
      .breaks ∧
    (e ≠ .keyboardInterrupt →
      NetworkManager.monitor_loop_step (.raised e) = .crashes e) ∧
    (Bootstream.boot_phase_catches phase e = true →
      phase = .manifestRefresh ∨ phase = .playerSpawn) := by
  refine ⟨?_, rfl, rfl, ?_, ?_⟩
  · intro h
    constructor <;>
      simp [Bootstream.boot_cycle_step, Bootstream.boot_phase_catches, h]
  · intro h
    simp [NetworkManager.monitor_loop_step, h]
  · intro h
    cases phase <;> simp_all [Bootstream.boot_phase_catches]

/-- Witness for C8 at a concrete exception and supervisor state. -/
theorem loop_exception_handling_w :
    Bootstream.boot_cycle_step .manifestRefresh (.raised .osError) =
      .continues ∧
    NetworkManager.monitor_loop_step (.raised .osError) =
      .crashes .osError :=
  ⟨((loop_exception_handling .osError .manifestRefresh
      ⟨none, [], .jnull⟩).1 rfl).1,
   (loop_exception_handling .osError .manifestRefresh
      ⟨none, [], .jnull⟩).2.2.2.1 (by decide)⟩

/-- C8 counterexample: an OSError raised inside one monitor-loop cycle
is not caught at the step boundary — the loop terminates. -/
theorem monitor_loop_uncaught_exception :
    NetworkManager.monitor_loop_step (.raised .osError) =
      .crashes .osError ∧
    NetworkManager.monitor_loop_step (.raised .osError) ≠
      .continues := by
  constructor <;> decide
